import Mathlib

/-!
Shallow embedding of the Trustle front-end core (App.tsx): the six-stage
pipeline orchestrator `handleRunPipeline`, the comparison flow
`handleRunComparison`, the follow-up chat handler `handleSendChatMessage`,
and the history list handling.

External collaborators (the Gemini model client, the FileReader, the video
frame extractor, IndexedDB) are modelled as an environment record carrying,
for each external call the run makes, either its successful result or the
error it throws.  The defensive JSON-extraction applied to the URL-ingestion
model response is folded into the environment field `urlFetchText`: its value
is the extracted, trimmed article text that results from that heuristic
(any string, including the empty one, is reachable, so nothing is lost for
the properties below).
-/

/-- The six agent stages, in the fixed pipeline order (AgentName in types.ts,
order as listed in the spec and INITIAL_PIPELINE_STATE). -/
inductive AgentName where
  | contentIngestion
  | textualAnalysis
  | emotionAnalysis
  | visualAnalysis
  | sourceIntelligence
  | finalSynthesis
deriving DecidableEq

/-- Per-stage status values (AgentStatus in types.ts). -/
inductive AgentStatus where
  | pending
  | running
  | completed
  | skipped
  | error
deriving DecidableEq

/-- One stage's tracked state: status plus the optional details string passed
to updateAndTrackStatus. -/
structure StageEntry where
  status : AgentStatus
  details : Option String
deriving DecidableEq

/-- PipelineState: one entry per agent stage. -/
structure PipelineState where
  contentIngestion : StageEntry
  textualAnalysis : StageEntry
  emotionAnalysis : StageEntry
  visualAnalysis : StageEntry
  sourceIntelligence : StageEntry
  finalSynthesis : StageEntry
deriving DecidableEq

/-- Modelled from the spec: INITIAL_PIPELINE_STATE lives in constants.ts,
which is not among the repository files; the spec states PipelineState is
"initialized with all stages Pending at run start". -/
def INITIAL_PIPELINE_STATE : PipelineState :=
  { contentIngestion := ⟨.pending, none⟩
    textualAnalysis := ⟨.pending, none⟩
    emotionAnalysis := ⟨.pending, none⟩
    visualAnalysis := ⟨.pending, none⟩
    sourceIntelligence := ⟨.pending, none⟩
    finalSynthesis := ⟨.pending, none⟩ }

/-- updateAndTrackStatus restricted to the pipeline-state value it builds:
replace one agent's entry, leave the rest. -/
def setAgent (ps : PipelineState) (a : AgentName) (s : AgentStatus)
    (d : Option String) : PipelineState :=
  match a with
  | .contentIngestion => { ps with contentIngestion := ⟨s, d⟩ }
  | .textualAnalysis => { ps with textualAnalysis := ⟨s, d⟩ }
  | .emotionAnalysis => { ps with emotionAnalysis := ⟨s, d⟩ }
  | .visualAnalysis => { ps with visualAnalysis := ⟨s, d⟩ }
  | .sourceIntelligence => { ps with sourceIntelligence := ⟨s, d⟩ }
  | .finalSynthesis => { ps with finalSynthesis := ⟨s, d⟩ }

/-- IngestionOutput (types.ts, fields used by App.tsx): extracted text and
source domain; the `images` field is always the empty list in App.tsx and is
omitted. -/
structure IngestionOutput where
  text : String
  domain : String
deriving DecidableEq

/-- TextualAnalysisOutput, fields per spec section 3 (types.ts is not among
the repository files; App.tsx treats the value opaquely). -/
structure TextualAnalysisOutput where
  summary : String
  sentiment : String
  entities : List String
  keywords : List String
deriving DecidableEq

/-- EmotionAnalysisOutput; App.tsx reads `dominant_emotion` for the stage
details string. -/
structure EmotionAnalysisOutput where
  dominant_emotion : String
  manipulation_level : String
deriving DecidableEq

/-- VisualAnalysisOutput; App.tsx treats the value opaquely. -/
structure VisualAnalysisOutput where
  visual_insights : List String
deriving DecidableEq

/-- SourceIntelligenceOutput; App.tsx reads `trust_score` (misinformation
threshold) and `source_validity` (details string). -/
structure SourceIntelligenceOutput where
  trust_score : Int
  source_validity : String
  source_validity_explanation : String
deriving DecidableEq

/-- AnalysisResults: the partial record accumulated during a run. -/
structure AnalysisResults where
  ingestion : Option IngestionOutput
  textual : Option TextualAnalysisOutput
  emotion : Option EmotionAnalysisOutput
  visual : Option VisualAnalysisOutput
  source : Option SourceIntelligenceOutput
deriving DecidableEq

def emptyResults : AnalysisResults := ⟨none, none, none, none, none⟩

/-- The record handed to addMisinformationRecord. -/
structure MisinfoRecord where
  domain : String
  url : String
  trustScore : Int
  timestamp : Nat
deriving DecidableEq

/-- HistoryItem as built in handleRunPipeline. -/
structure HistoryItem where
  id : String
  url : String
  report : String
  timestamp : String
  pipelineState : PipelineState
  analysisResults : AnalysisResults
deriving DecidableEq

/-- Chat roles. -/
inductive Role where
  | user
  | model
deriving DecidableEq

/-- One chat transcript entry. -/
structure ChatMessage where
  role : Role
  content : String
deriving DecidableEq

/-- A finite streamed response: the chunks it yields in order, then
optionally the error it raises after the last yielded chunk. -/
structure StreamResult where
  chunks : List String
  fail : Option String
deriving DecidableEq

/-- The submission handed to handleRunPipeline.  JS truthiness of
`submittedUrl` / `textInput` is emptiness of the string; `imageFile` /
`videoFile` presence is a flag plus the file name used for the display
URL. -/
structure RunInput where
  url : String
  textInput : String
  hasImage : Bool
  hasVideo : Bool
  imageName : String
  videoName : String
deriving DecidableEq

/-- Image bytes as produced by the FileReader (base64 data and mime type). -/
structure ImageData where
  data : String
  mimeType : String
deriving DecidableEq

/-- The behaviour of every external call one run can make. -/
structure PipelineEnv where
  /-- FileReader.readAsDataURL on the image file. -/
  imageRead : Except String ImageData
  /-- URL-ingestion model call, JSON-extraction heuristic and trim folded in:
  the resulting extracted text, or the error the model call throws. -/
  urlFetchText : Except String String
  /-- `new URL(submittedUrl).hostname`: the hostname, or the TypeError an
  invalid URL throws. -/
  urlDomain : Except String String
  /-- performTextualAnalysis. -/
  textual : Except String TextualAnalysisOutput
  /-- performEmotionAnalysis. -/
  emotion : Except String EmotionAnalysisOutput
  /-- extractFramesFromVideo. -/
  frames : Except String Unit
  /-- performVisualAnalysis (image or video-frames call; one run makes at
  most one of the two). -/
  visual : Except String VisualAnalysisOutput
  /-- performSourceIntelligence. -/
  source : Except String SourceIntelligenceOutput
  /-- generateFinalBrief stream. -/
  brief : StreamResult
  /-- `new Date().toISOString()` for the history item id and timestamp. -/
  runId : String
  /-- `Date.now()` for the misinformation record. -/
  now : Nat

/-- Modelled from the spec: getFriendlyErrorMessage lives in utils.ts, which
is not among the repository files; the spec describes it as a leaf that maps
an arbitrary failure cause to a user-presentable message.  Failure causes are
already carried as message strings here, so the translation is the
identity. -/
def getFriendlyErrorMessage (e : String) : String := e

/-- The in-flight state of one run: the tracked pipeline state, accumulated
results, the streamed report so far, misinformation-memory writes triggered
so far, and the pending exception if a statement threw. -/
structure RunState where
  ps : PipelineState
  results : AnalysisResults
  finalReport : Option String
  memWrites : List MisinfoRecord
  exn : Option String
deriving DecidableEq

def initialRunState : RunState :=
  { ps := INITIAL_PIPELINE_STATE, results := emptyResults, finalReport := none
    memWrites := [], exn := none }

/-- Reading the image file, before stage 1; a FileReader failure is rethrown
as "Failed to read image file.". -/
def imageStep (inp : RunInput) (env : PipelineEnv) (st : RunState) : RunState :=
  if st.exn.isSome then st
  else if inp.hasImage then
    match env.imageRead with
    | .error _ => { st with exn := some "Failed to read image file." }
    | .ok _ => st
  else st

/-- Stage 1, Content Ingestion. -/
def ingestStep (inp : RunInput) (env : PipelineEnv) (st : RunState) : RunState :=
  if st.exn.isSome then st
  else if inp.url ≠ "" then
    let st := { st with ps := setAgent st.ps .contentIngestion .running (some "Ingesting content from URL...") }
    match env.urlFetchText with
    | .error e => { st with exn := some e }
    | .ok extractedText =>
      match env.urlDomain with
      | .error e => { st with exn := some e }
      | .ok domain =>
        let st := { st with results :=
          { st.results with ingestion := some ⟨extractedText, domain⟩ } }
        if extractedText ≠ "" then
          { st with ps := setAgent st.ps .contentIngestion .completed (some "Text extracted") }
        else
          { st with ps := setAgent st.ps .contentIngestion .completed (some "No main text found") }
  else if inp.textInput ≠ "" then
    let st := { st with ps := setAgent st.ps .contentIngestion .running (some "Processing direct text...") }
    let st := { st with results :=
      { st.results with ingestion := some ⟨inp.textInput, ""⟩ } }
    { st with ps := setAgent st.ps .contentIngestion .completed (some "Text processed") }
  else
    { st with ps := setAgent st.ps .contentIngestion .skipped (some "No URL or text provided") }

/-- `currentAnalysisResults.ingestion?.text` with JS truthiness: the text, or
"" when ingestion is absent. -/
def ingestionText (r : AnalysisResults) : String :=
  match r.ingestion with
  | some i => i.text
  | none => ""

/-- `currentAnalysisResults.ingestion?.domain` with JS truthiness. -/
def ingestionDomain (r : AnalysisResults) : String :=
  match r.ingestion with
  | some i => i.domain
  | none => ""

/-- Stage 2, Textual Analysis. -/
def textualStep (env : PipelineEnv) (st : RunState) : RunState :=
  if st.exn.isSome then st
  else if ingestionText st.results ≠ "" then
    let st := { st with ps := setAgent st.ps .textualAnalysis .running (some "Analyzing text...") }
    match env.textual with
    | .error e => { st with exn := some e }
    | .ok r =>
      let st := { st with results := { st.results with textual := some r } }
      { st with ps := setAgent st.ps .textualAnalysis .completed (some "Summary and entities extracted") }
  else
    { st with ps := setAgent st.ps .textualAnalysis .skipped (some "No text to analyze") }

/-- Stage 3, Emotion Analysis. -/
def emotionStep (env : PipelineEnv) (st : RunState) : RunState :=
  if st.exn.isSome then st
  else if ingestionText st.results ≠ "" then
    let st := { st with ps := setAgent st.ps .emotionAnalysis .running (some "Analyzing emotional tone...") }
    match env.emotion with
    | .error e => { st with exn := some e }
    | .ok r =>
      let st := { st with results := { st.results with emotion := some r } }
      { st with ps := setAgent st.ps .emotionAnalysis .completed (some ("Emotion: " ++ r.dominant_emotion)) }
  else
    { st with ps := setAgent st.ps .emotionAnalysis .skipped (some "No text to analyze") }

/-- Stage 4, Visual Analysis. -/
def visualStep (inp : RunInput) (env : PipelineEnv) (st : RunState) : RunState :=
  if st.exn.isSome then st
  else if inp.hasImage then
    let st := { st with ps := setAgent st.ps .visualAnalysis .running (some "Analyzing uploaded image...") }
    match env.visual with
    | .error e => { st with exn := some e }
    | .ok r =>
      let st := { st with results := { st.results with visual := some r } }
      { st with ps := setAgent st.ps .visualAnalysis .completed (some "Image analysis complete") }
  else if inp.hasVideo then
    let st := { st with ps := setAgent st.ps .visualAnalysis .running (some "Extracting frames from video...") }
    match env.frames with
    | .error e => { st with exn := some e }
    | .ok _ =>
      let st := { st with ps := setAgent st.ps .visualAnalysis .running (some "Analyzing video frames...") }
      match env.visual with
      | .error e => { st with exn := some e }
      | .ok r =>
        let st := { st with results := { st.results with visual := some r } }
        { st with ps := setAgent st.ps .visualAnalysis .completed (some "Video analysis complete") }
  else
    { st with ps := setAgent st.ps .visualAnalysis .skipped (some "No visual media uploaded") }

/-- MISINFORMATION_THRESHOLD in handleRunPipeline. -/
def MISINFORMATION_THRESHOLD : Int := 40

/-- Stage 5, Source Intelligence, with the conditional misinformation-memory
write (addMisinformationRecord; its own storage failure is caught locally and
non-fatal, so the write is recorded here as triggered). -/
def sourceStep (inp : RunInput) (env : PipelineEnv) (st : RunState) : RunState :=
  if st.exn.isSome then st
  else if ingestionDomain st.results ≠ "" then
    let st := { st with ps := setAgent st.ps .sourceIntelligence .running (some "Verifying source credibility...") }
    match env.source with
    | .error e => { st with exn := some e }
    | .ok r =>
      let st := { st with results := { st.results with source := some r } }
      let st := { st with ps := setAgent st.ps .sourceIntelligence .completed (some ("Credibility: " ++ r.source_validity)) }
      if r.trust_score < MISINFORMATION_THRESHOLD then
        { st with memWrites := st.memWrites ++
          [⟨ingestionDomain st.results, inp.url, r.trust_score, env.now⟩] }
      else st
  else
    { st with ps := setAgent st.ps .sourceIntelligence .skipped (some "No domain to verify") }

/-- The message of the FinalSynthesis precondition throw. -/
def noDataMsg : String :=
  "No data available to generate a brief. Provide a URL, image, or text."

/-- Stage 6, Final Synthesis: precondition throw, then stream consumption
(each chunk is appended to the report buffer as it arrives; a mid-stream
failure leaves the chunks already appended in place). -/
def synthStep (env : PipelineEnv) (st : RunState) : RunState :=
  if st.exn.isSome then st
  else if st.results.textual.isNone && st.results.visual.isNone then
    { st with exn := some noDataMsg }
  else
    let st := { st with ps := setAgent st.ps .finalSynthesis .running (some "Generating final brief...") }
    let st := { st with finalReport := some (String.join env.brief.chunks) }
    match env.brief.fail with
    | some e => { st with exn := some e }
    | none =>
      { st with ps := setAgent st.ps .finalSynthesis .completed (some "Brief generated successfully") }

/-- The whole try-block of handleRunPipeline up to (and including) stage 6. -/
def runStages (inp : RunInput) (env : PipelineEnv) : RunState :=
  synthStep env (sourceStep inp env (visualStep inp env (emotionStep env
    (textualStep env (ingestStep inp env (imageStep inp env initialRunState))))))

/-- The state after the five pre-synthesis stages. -/
def preSynth (inp : RunInput) (env : PipelineEnv) : RunState :=
  sourceStep inp env (visualStep inp env (emotionStep env
    (textualStep env (ingestStep inp env (imageStep inp env initialRunState)))))

/-- The state after Content Ingestion. -/
def postIngest (inp : RunInput) (env : PipelineEnv) : RunState :=
  ingestStep inp env (imageStep inp env initialRunState)

/-- The catch block's search for the agent currently Running, in the
iteration order of Object.entries over the pipeline state. -/
def firstRunning (ps : PipelineState) : Option AgentName :=
  if ps.contentIngestion.status = .running then some .contentIngestion
  else if ps.textualAnalysis.status = .running then some .textualAnalysis
  else if ps.emotionAnalysis.status = .running then some .emotionAnalysis
  else if ps.visualAnalysis.status = .running then some .visualAnalysis
  else if ps.sourceIntelligence.status = .running then some .sourceIntelligence
  else if ps.finalSynthesis.status = .running then some .finalSynthesis
  else none

/-- The stage-specific user-facing error template of the catch block. -/
def friendlyTemplate (a : AgentName) (msg : String) : String :=
  match a with
  | .contentIngestion =>
    "Content Ingestion failed. Please check if the URL is correct and publicly accessible, or try a different source. Details: " ++ msg
  | .textualAnalysis =>
    "Textual Analysis failed. The content from the source might be malformed or empty. Details: " ++ msg
  | .emotionAnalysis =>
    "Emotion Analysis failed. The model could not determine the emotional tone of the content. Details: " ++ msg
  | .visualAnalysis =>
    "Visual Analysis failed. The uploaded media might be corrupted or in an unsupported format. Details: " ++ msg
  | .sourceIntelligence =>
    "Source Intelligence failed. The model could not verify the source's credibility, which can happen with new or obscure domains. Details: " ++ msg
  | .finalSynthesis =>
    "Final Synthesis failed. The model could not generate a brief from the collected data. Details: " ++ msg

/-- The catch block's pipeline-state update (mark the Running agent, if any,
as Error with the translated message). -/
def catchMark (ps : PipelineState) (msg : String) : PipelineState :=
  match firstRunning ps with
  | some a => setAgent ps a .error (some msg)
  | none => ps

/-- The catch block's user-facing error message. -/
def catchError (ps : PipelineState) (msg : String) : String :=
  match firstRunning ps with
  | some a => friendlyTemplate a msg
  | none => "Pipeline failed: " ++ msg

/-- `submittedUrl || (textInput ? "Direct Text Input" : (imageFile ?
imageFile.name : videoFile!.name))`. -/
def displayUrl (inp : RunInput) : String :=
  if inp.url ≠ "" then inp.url
  else if inp.textInput ≠ "" then "Direct Text Input"
  else if inp.hasImage then inp.imageName
  else inp.videoName

/-- The history item a successful run builds from its final in-flight
state.  id and timestamp are two Date().toISOString() calls in the source,
modelled by the single run timestamp. -/
def mkItemFrom (inp : RunInput) (env : PipelineEnv) (st : RunState) : HistoryItem :=
  { id := env.runId, url := displayUrl inp, report := st.finalReport.getD ""
    timestamp := env.runId, pipelineState := st.ps
    analysisResults := st.results }

def mkHistoryItem (inp : RunInput) (env : PipelineEnv) : HistoryItem :=
  mkItemFrom inp env (runStages inp env)

/-- The greeting entry the chat transcript is bootstrapped with after a
successful run. -/
def chatGreeting : String :=
  "I've generated the brief. What specific details would you like to explore?"

/-- The outer component state a run leaves behind (resetAnalysisState runs
first, so every field other than the history is absolute). -/
structure RunOutput where
  ps : PipelineState
  results : AnalysisResults
  finalReport : Option String
  memWrites : List MisinfoRecord
  error : Option String
  history : List HistoryItem
  chatMessages : List ChatMessage
  chatStarted : Bool
  isLoading : Bool
deriving DecidableEq

/-- The tail of handleRunPipeline: on success, append to history and
bootstrap the chat; on a pending exception, run the catch block (mark the
Running agent, if any, as Error and build the user-facing message). -/
def finishRun (inp : RunInput) (env : PipelineEnv) (hist : List HistoryItem)
    (st : RunState) : RunOutput :=
  match st.exn with
  | none =>
    { ps := st.ps, results := st.results, finalReport := st.finalReport
      memWrites := st.memWrites, error := none
      history := mkItemFrom inp env st :: hist
      chatMessages := [⟨.model, chatGreeting⟩]
      chatStarted := true, isLoading := false }
  | some e =>
    let friendlyMessage := getFriendlyErrorMessage e
    { ps := catchMark st.ps friendlyMessage
      results := st.results, finalReport := st.finalReport
      memWrites := st.memWrites
      error := some (catchError st.ps friendlyMessage)
      history := hist, chatMessages := [], chatStarted := false
      isLoading := false }

/-- handleRunPipeline: `none` when the empty-input guard returns early (the
run never starts and no outer state changes), otherwise the run's outcome. -/
def handleRunPipeline (inp : RunInput) (env : PipelineEnv)
    (hist : List HistoryItem) : Option RunOutput :=
  if inp.url = "" && inp.textInput = "" && !inp.hasImage && !inp.hasVideo then
    none
  else
    some (finishRun inp env hist (runStages inp env))

/-- The component state handleRunComparison reads and writes. -/
structure CompareState where
  selectedIds : List String
  isCompareMode : Bool
  comparisonReport : Option String
  error : Option String
  showComparisonView : Bool
  isComparing : Bool
deriving DecidableEq

/-- handleRunComparison: guard on fewer than two selected items, then
consume the generateComparisonBrief stream, accumulating each chunk into the
comparison-report buffer; on a mid-stream failure surface the error with the
"Comparison failed" prefix and clear the selection, keeping the buffer. -/
def handleRunComparison (env : StreamResult) (st : CompareState) : CompareState :=
  if st.selectedIds.length < 2 then st
  else
    let st := { st with isComparing := true, comparisonReport := some "", error := none }
    let st := { st with comparisonReport := some (String.join env.chunks) }
    let st :=
      match env.fail with
      | none => { st with showComparisonView := true, isCompareMode := false }
      | some e =>
        { st with error := some ("Comparison failed: " ++ getFriendlyErrorMessage e), isCompareMode := false, selectedIds := [] }
    { st with isComparing := false }

/-- The component state handleSendChatMessage reads and writes; the session
object is opaque to the handler, so only its presence is tracked. -/
structure ChatState where
  chatSession : Bool
  chatMessages : List ChatMessage
  isChatLoading : Bool
deriving DecidableEq

/-- The behaviour of one chatSession.sendMessageStream call: an error thrown
by the call itself (before any chunk), or the stream's chunks followed by an
optional mid-stream error. -/
structure ChatStream where
  openFail : Option String
  chunks : List String
  fail : Option String
deriving DecidableEq

/-- The per-chunk transcript update: overwrite the content of the last
message if there is one and its role is model, else leave the list as is. -/
def updateLastModel : List ChatMessage → String → List ChatMessage
  | [], _ => []
  | [m], c => if m.role = .model then [⟨.model, c⟩] else [m]
  | m :: rest, c => m :: updateLastModel rest c

/-- What handleSendChatMessage leaves behind, plus whether
sendMessageStream was invoked at all. -/
structure SendOutput where
  st : ChatState
  streamRequested : Bool
deriving DecidableEq

/-- handleSendChatMessage: no-op guard when there is no session or a send is
in flight; otherwise append the user message, and on a successful stream
open append a model placeholder filled chunk by chunk; any failure rewrites
the last model entry with the translated error. -/
def handleSendChatMessage (stream : ChatStream) (message : String)
    (st : ChatState) : SendOutput :=
  if !st.chatSession || st.isChatLoading then ⟨st, false⟩
  else
    let msgs := st.chatMessages ++ [⟨.user, message⟩]
    match stream.openFail with
    | some e =>
      ⟨⟨st.chatSession,
        updateLastModel msgs ("Sorry, an error occurred: " ++ getFriendlyErrorMessage e),
        false⟩, true⟩
    | none =>
      let msgs := msgs ++ [⟨.model, ""⟩]
      match stream.fail with
      | none => ⟨⟨st.chatSession, updateLastModel msgs (String.join stream.chunks), false⟩, true⟩
      | some e =>
        ⟨⟨st.chatSession,
          updateLastModel msgs ("Sorry, an error occurred: " ++ getFriendlyErrorMessage e),
          false⟩, true⟩

/-! Concrete fixtures used by the witnesses and counterexamples below. -/

/-- A raw-text-only submission. -/
def textOnlyInput : RunInput :=
  { url := "", textInput := "hi", hasImage := false, hasVideo := false
    imageName := "", videoName := "" }

/-- An image-only submission. -/
def imageOnlyInput : RunInput :=
  { url := "", textInput := "", hasImage := true, hasVideo := false
    imageName := "img.png", videoName := "" }

/-- A URL submission. -/
def urlInput : RunInput :=
  { url := "https://example.com/a", textInput := "", hasImage := false
    hasVideo := false, imageName := "", videoName := "" }

/-- An environment in which every external call succeeds. -/
def okEnv : PipelineEnv :=
  { imageRead := .ok ⟨"d", "image/png"⟩
    urlFetchText := .ok "body"
    urlDomain := .ok "example.com"
    textual := .ok ⟨"sum", "Neutral", [], []⟩
    emotion := .ok ⟨"joy", "Low"⟩
    frames := .ok ()
    visual := .ok ⟨[]⟩
    source := .ok ⟨80, "High", "ok"⟩
    brief := ⟨["rep"], none⟩
    runId := "t1", now := 7 }

/-- okEnv, but the URL-ingestion model call throws. -/
def ingestFailEnv : PipelineEnv := { okEnv with urlFetchText := .error "boom" }

/-- okEnv, but the URL yields no main text (empty extraction). -/
def noTextEnv : PipelineEnv := { okEnv with urlFetchText := .ok "" }

/-- noTextEnv with a source trust score of 39. -/
def score39Env : PipelineEnv := { noTextEnv with source := .ok ⟨39, "Low", "x"⟩ }

/-- noTextEnv with a source trust score of 40. -/
def score40Env : PipelineEnv := { noTextEnv with source := .ok ⟨40, "Low", "x"⟩ }

/-! Invariant predicates over a pipeline state. -/

/-- No stage is currently Running. -/
def noRunning (ps : PipelineState) : Prop :=
  ps.contentIngestion.status ≠ .running ∧ ps.textualAnalysis.status ≠ .running ∧
  ps.emotionAnalysis.status ≠ .running ∧ ps.visualAnalysis.status ≠ .running ∧
  ps.sourceIntelligence.status ≠ .running ∧ ps.finalSynthesis.status ≠ .running

/-- No stage is marked Error. -/
def noErrorMark (ps : PipelineState) : Prop :=
  ps.contentIngestion.status ≠ .error ∧ ps.textualAnalysis.status ≠ .error ∧
  ps.emotionAnalysis.status ≠ .error ∧ ps.visualAnalysis.status ≠ .error ∧
  ps.sourceIntelligence.status ≠ .error ∧ ps.finalSynthesis.status ≠ .error

/-- A status terminal for one run: Completed, Skipped or Error. -/
def isTerminal (s : AgentStatus) : Prop :=
  s = .completed ∨ s = .skipped ∨ s = .error

/-- Every stage is in a terminal status. -/
def allTerminal (ps : PipelineState) : Prop :=
  isTerminal ps.contentIngestion.status ∧ isTerminal ps.textualAnalysis.status ∧
  isTerminal ps.emotionAnalysis.status ∧ isTerminal ps.visualAnalysis.status ∧
  isTerminal ps.sourceIntelligence.status ∧ isTerminal ps.finalSynthesis.status

/-- Every stage other than `a` is not Running. -/
def exceptRunning (ps : PipelineState) (a : AgentName) : Prop :=
  (a ≠ .contentIngestion → ps.contentIngestion.status ≠ .running) ∧
  (a ≠ .textualAnalysis → ps.textualAnalysis.status ≠ .running) ∧
  (a ≠ .emotionAnalysis → ps.emotionAnalysis.status ≠ .running) ∧
  (a ≠ .visualAnalysis → ps.visualAnalysis.status ≠ .running) ∧
  (a ≠ .sourceIntelligence → ps.sourceIntelligence.status ≠ .running) ∧
  (a ≠ .finalSynthesis → ps.finalSynthesis.status ≠ .running)

instance (ps : PipelineState) : Decidable (noRunning ps) := by
  unfold noRunning; infer_instance

instance (ps : PipelineState) : Decidable (noErrorMark ps) := by
  unfold noErrorMark; infer_instance

instance (s : AgentStatus) : Decidable (isTerminal s) := by
  unfold isTerminal; infer_instance

instance (ps : PipelineState) : Decidable (allTerminal ps) := by
  unfold allTerminal; infer_instance

theorem catchMark_of_noRunning (ps : PipelineState) (msg : String)
    (h : noRunning ps) : catchMark ps msg = ps := by
  obtain ⟨h1, h2, h3, h4, h5, h6⟩ := h
  unfold catchMark firstRunning
  split_ifs <;> simp_all

theorem noRunning_catchMark (ps : PipelineState) (msg : String) (a : AgentName)
    (h : exceptRunning ps a) : noRunning (catchMark ps msg) := by
  obtain ⟨h1, h2, h3, h4, h5, h6⟩ := h
  unfold catchMark firstRunning
  cases a <;> split_ifs <;>
    simp_all [setAgent, noRunning]

/-! Per-step lemmas: each stage is the identity once an exception is
pending, touches only its own pipeline entry and result field, and leaves
its own entry terminal on success, Running or untouched on a throw. -/

theorem imageStep_exn_some (inp : RunInput) (env : PipelineEnv) (st : RunState)
    (h : st.exn.isSome) : imageStep inp env st = st := by
  unfold imageStep; simp [h]

theorem imageStep_frame (inp : RunInput) (env : PipelineEnv) (st : RunState) :
    (imageStep inp env st).ps = st.ps ∧
    (imageStep inp env st).results = st.results ∧
    (imageStep inp env st).finalReport = st.finalReport ∧
    (imageStep inp env st).memWrites = st.memWrites := by
  unfold imageStep
  repeat' split
  all_goals simp

theorem ingestStep_exn_some (inp : RunInput) (env : PipelineEnv) (st : RunState)
    (h : st.exn.isSome) : ingestStep inp env st = st := by
  unfold ingestStep; simp [h]

theorem ingestStep_frame (inp : RunInput) (env : PipelineEnv) (st : RunState) :
    (ingestStep inp env st).ps.textualAnalysis = st.ps.textualAnalysis ∧
    (ingestStep inp env st).ps.emotionAnalysis = st.ps.emotionAnalysis ∧
    (ingestStep inp env st).ps.visualAnalysis = st.ps.visualAnalysis ∧
    (ingestStep inp env st).ps.sourceIntelligence = st.ps.sourceIntelligence ∧
    (ingestStep inp env st).ps.finalSynthesis = st.ps.finalSynthesis ∧
    (ingestStep inp env st).results.textual = st.results.textual ∧
    (ingestStep inp env st).results.emotion = st.results.emotion ∧
    (ingestStep inp env st).results.visual = st.results.visual ∧
    (ingestStep inp env st).results.source = st.results.source ∧
    (ingestStep inp env st).finalReport = st.finalReport ∧
    (ingestStep inp env st).memWrites = st.memWrites := by
  unfold ingestStep
  repeat' split
  all_goals simp [setAgent]

theorem ingestStep_ok (inp : RunInput) (env : PipelineEnv) (st : RunState)
    (h : st.exn = none) (h2 : (ingestStep inp env st).exn = none) :
    (ingestStep inp env st).ps.contentIngestion.status = .completed ∨
    (ingestStep inp env st).ps.contentIngestion.status = .skipped := by
  unfold ingestStep at *
  repeat' split at h2
  all_goals simp_all [setAgent]

theorem ingestStep_fail (inp : RunInput) (env : PipelineEnv) (st : RunState)
    (h : st.exn = none) (h2 : (ingestStep inp env st).exn.isSome) :
    (ingestStep inp env st).ps.contentIngestion.status = .running ∨
    (ingestStep inp env st).ps.contentIngestion = st.ps.contentIngestion := by
  unfold ingestStep at *
  repeat' split at h2
  all_goals simp_all [setAgent]

theorem textualStep_exn_some (env : PipelineEnv) (st : RunState)
    (h : st.exn.isSome) : textualStep env st = st := by
  unfold textualStep; simp [h]

theorem textualStep_frame (env : PipelineEnv) (st : RunState) :
    (textualStep env st).ps.contentIngestion = st.ps.contentIngestion ∧
    (textualStep env st).ps.emotionAnalysis = st.ps.emotionAnalysis ∧
    (textualStep env st).ps.visualAnalysis = st.ps.visualAnalysis ∧
    (textualStep env st).ps.sourceIntelligence = st.ps.sourceIntelligence ∧
    (textualStep env st).ps.finalSynthesis = st.ps.finalSynthesis ∧
    (textualStep env st).results.ingestion = st.results.ingestion ∧
    (textualStep env st).results.emotion = st.results.emotion ∧
    (textualStep env st).results.visual = st.results.visual ∧
    (textualStep env st).results.source = st.results.source ∧
    (textualStep env st).finalReport = st.finalReport ∧
    (textualStep env st).memWrites = st.memWrites := by
  unfold textualStep
  repeat' split
  all_goals simp [setAgent]

theorem textualStep_ok (env : PipelineEnv) (st : RunState)
    (h : st.exn = none) (h2 : (textualStep env st).exn = none) :
    (textualStep env st).ps.textualAnalysis.status = .completed ∨
    (textualStep env st).ps.textualAnalysis.status = .skipped := by
  unfold textualStep at *
  repeat' split at h2
  all_goals simp_all [setAgent]

theorem textualStep_fail (env : PipelineEnv) (st : RunState)
    (h : st.exn = none) (h2 : (textualStep env st).exn.isSome) :
    (textualStep env st).ps.textualAnalysis.status = .running ∨
    (textualStep env st).ps.textualAnalysis = st.ps.textualAnalysis := by
  unfold textualStep at *
  repeat' split at h2
  all_goals simp_all [setAgent]

theorem emotionStep_exn_some (env : PipelineEnv) (st : RunState)
    (h : st.exn.isSome) : emotionStep env st = st := by
  unfold emotionStep; simp [h]

theorem emotionStep_frame (env : PipelineEnv) (st : RunState) :
    (emotionStep env st).ps.contentIngestion = st.ps.contentIngestion ∧
    (emotionStep env st).ps.textualAnalysis = st.ps.textualAnalysis ∧
    (emotionStep env st).ps.visualAnalysis = st.ps.visualAnalysis ∧
    (emotionStep env st).ps.sourceIntelligence = st.ps.sourceIntelligence ∧
    (emotionStep env st).ps.finalSynthesis = st.ps.finalSynthesis ∧
    (emotionStep env st).results.ingestion = st.results.ingestion ∧
    (emotionStep env st).results.textual = st.results.textual ∧
    (emotionStep env st).results.visual = st.results.visual ∧
    (emotionStep env st).results.source = st.results.source ∧
    (emotionStep env st).finalReport = st.finalReport ∧
    (emotionStep env st).memWrites = st.memWrites := by
  unfold emotionStep
  repeat' split
  all_goals simp [setAgent]

theorem emotionStep_ok (env : PipelineEnv) (st : RunState)
    (h : st.exn = none) (h2 : (emotionStep env st).exn = none) :
    (emotionStep env st).ps.emotionAnalysis.status = .completed ∨
    (emotionStep env st).ps.emotionAnalysis.status = .skipped := by
  unfold emotionStep at *
  repeat' split at h2
  all_goals simp_all [setAgent]

theorem emotionStep_fail (env : PipelineEnv) (st : RunState)
    (h : st.exn = none) (h2 : (emotionStep env st).exn.isSome) :
    (emotionStep env st).ps.emotionAnalysis.status = .running ∨
    (emotionStep env st).ps.emotionAnalysis = st.ps.emotionAnalysis := by
  unfold emotionStep at *
  repeat' split at h2
  all_goals simp_all [setAgent]

theorem visualStep_exn_some (inp : RunInput) (env : PipelineEnv) (st : RunState)
    (h : st.exn.isSome) : visualStep inp env st = st := by
  unfold visualStep; simp [h]

theorem visualStep_frame (inp : RunInput) (env : PipelineEnv) (st : RunState) :
    (visualStep inp env st).ps.contentIngestion = st.ps.contentIngestion ∧
    (visualStep inp env st).ps.textualAnalysis = st.ps.textualAnalysis ∧
    (visualStep inp env st).ps.emotionAnalysis = st.ps.emotionAnalysis ∧
    (visualStep inp env st).ps.sourceIntelligence = st.ps.sourceIntelligence ∧
    (visualStep inp env st).ps.finalSynthesis = st.ps.finalSynthesis ∧
    (visualStep inp env st).results.ingestion = st.results.ingestion ∧
    (visualStep inp env st).results.textual = st.results.textual ∧
    (visualStep inp env st).results.emotion = st.results.emotion ∧
    (visualStep inp env st).results.source = st.results.source ∧
    (visualStep inp env st).finalReport = st.finalReport ∧
    (visualStep inp env st).memWrites = st.memWrites := by
  unfold visualStep
  repeat' split
  all_goals simp [setAgent]

theorem visualStep_ok (inp : RunInput) (env : PipelineEnv) (st : RunState)
    (h : st.exn = none) (h2 : (visualStep inp env st).exn = none) :
    (visualStep inp env st).ps.visualAnalysis.status = .completed ∨
    (visualStep inp env st).ps.visualAnalysis.status = .skipped := by
  unfold visualStep at *
  repeat' split at h2
  all_goals simp_all [setAgent]

theorem visualStep_fail (inp : RunInput) (env : PipelineEnv) (st : RunState)
    (h : st.exn = none) (h2 : (visualStep inp env st).exn.isSome) :
    (visualStep inp env st).ps.visualAnalysis.status = .running ∨
    (visualStep inp env st).ps.visualAnalysis = st.ps.visualAnalysis := by
  unfold visualStep at *
  repeat' split at h2
  all_goals simp_all [setAgent]

theorem sourceStep_exn_some (inp : RunInput) (env : PipelineEnv) (st : RunState)
    (h : st.exn.isSome) : sourceStep inp env st = st := by
  unfold sourceStep; simp [h]

theorem sourceStep_frame (inp : RunInput) (env : PipelineEnv) (st : RunState) :
    (sourceStep inp env st).ps.contentIngestion = st.ps.contentIngestion ∧
    (sourceStep inp env st).ps.textualAnalysis = st.ps.textualAnalysis ∧
    (sourceStep inp env st).ps.emotionAnalysis = st.ps.emotionAnalysis ∧
    (sourceStep inp env st).ps.visualAnalysis = st.ps.visualAnalysis ∧
    (sourceStep inp env st).ps.finalSynthesis = st.ps.finalSynthesis ∧
    (sourceStep inp env st).results.ingestion = st.results.ingestion ∧
    (sourceStep inp env st).results.textual = st.results.textual ∧
    (sourceStep inp env st).results.emotion = st.results.emotion ∧
    (sourceStep inp env st).results.visual = st.results.visual ∧
    (sourceStep inp env st).finalReport = st.finalReport := by
  unfold sourceStep
  repeat' split
  all_goals simp [setAgent]

theorem sourceStep_ok (inp : RunInput) (env : PipelineEnv) (st : RunState)
    (h : st.exn = none) (h2 : (sourceStep inp env st).exn = none) :
    (sourceStep inp env st).ps.sourceIntelligence.status = .completed ∨
    (sourceStep inp env st).ps.sourceIntelligence.status = .skipped := by
  unfold sourceStep at *
  repeat' split at h2
  all_goals repeat' split
  all_goals first | simp_all [setAgent] | (exfalso; omega)

theorem sourceStep_fail (inp : RunInput) (env : PipelineEnv) (st : RunState)
    (h : st.exn = none) (h2 : (sourceStep inp env st).exn.isSome) :
    (sourceStep inp env st).ps.sourceIntelligence.status = .running ∨
    (sourceStep inp env st).ps.sourceIntelligence = st.ps.sourceIntelligence := by
  unfold sourceStep at *
  repeat' split at h2
  all_goals simp_all [setAgent]

theorem synthStep_exn_some (env : PipelineEnv) (st : RunState)
    (h : st.exn.isSome) : synthStep env st = st := by
  unfold synthStep; simp [h]

theorem synthStep_frame (env : PipelineEnv) (st : RunState) :
    (synthStep env st).ps.contentIngestion = st.ps.contentIngestion ∧
    (synthStep env st).ps.textualAnalysis = st.ps.textualAnalysis ∧
    (synthStep env st).ps.emotionAnalysis = st.ps.emotionAnalysis ∧
    (synthStep env st).ps.visualAnalysis = st.ps.visualAnalysis ∧
    (synthStep env st).ps.sourceIntelligence = st.ps.sourceIntelligence ∧
    (synthStep env st).results = st.results ∧
    (synthStep env st).memWrites = st.memWrites := by
  unfold synthStep
  repeat' split
  all_goals simp [setAgent]

theorem synthStep_ok (env : PipelineEnv) (st : RunState)
    (h : st.exn = none) (h2 : (synthStep env st).exn = none) :
    (synthStep env st).ps.finalSynthesis.status = .completed ∨
    (synthStep env st).ps.finalSynthesis.status = .skipped := by
  unfold synthStep at *
  repeat' split at h2
  all_goals repeat' split
  all_goals first | simp_all [setAgent] | (exfalso; omega)

theorem synthStep_fail (env : PipelineEnv) (st : RunState)
    (h : st.exn = none) (h2 : (synthStep env st).exn.isSome) :
    (synthStep env st).ps.finalSynthesis.status = .running ∨
    (synthStep env st).ps.finalSynthesis = st.ps.finalSynthesis := by
  unfold synthStep at *
  repeat' split at h2
  all_goals repeat' split
  all_goals first | simp_all [setAgent] | (exfalso; omega)

theorem imageStep_exn_mono (inp : RunInput) (env : PipelineEnv) (st : RunState)
    (h2 : (imageStep inp env st).exn = none) : st.exn = none := by
  cases hst : st.exn with
  | none => rfl
  | some e => rw [imageStep_exn_some inp env st (by simp [hst])] at h2; simp_all

theorem ingestStep_exn_mono (inp : RunInput) (env : PipelineEnv) (st : RunState)
    (h2 : (ingestStep inp env st).exn = none) : st.exn = none := by
  cases hst : st.exn with
  | none => rfl
  | some e => rw [ingestStep_exn_some inp env st (by simp [hst])] at h2; simp_all

theorem textualStep_exn_mono (env : PipelineEnv) (st : RunState)
    (h2 : (textualStep env st).exn = none) : st.exn = none := by
  cases hst : st.exn with
  | none => rfl
  | some e => rw [textualStep_exn_some env st (by simp [hst])] at h2; simp_all

theorem emotionStep_exn_mono (env : PipelineEnv) (st : RunState)
    (h2 : (emotionStep env st).exn = none) : st.exn = none := by
  cases hst : st.exn with
  | none => rfl
  | some e => rw [emotionStep_exn_some env st (by simp [hst])] at h2; simp_all

theorem visualStep_exn_mono (inp : RunInput) (env : PipelineEnv) (st : RunState)
    (h2 : (visualStep inp env st).exn = none) : st.exn = none := by
  cases hst : st.exn with
  | none => rfl
  | some e => rw [visualStep_exn_some inp env st (by simp [hst])] at h2; simp_all

theorem sourceStep_exn_mono (inp : RunInput) (env : PipelineEnv) (st : RunState)
    (h2 : (sourceStep inp env st).exn = none) : st.exn = none := by
  cases hst : st.exn with
  | none => rfl
  | some e => rw [sourceStep_exn_some inp env st (by simp [hst])] at h2; simp_all

theorem synthStep_exn_mono (env : PipelineEnv) (st : RunState)
    (h2 : (synthStep env st).exn = none) : st.exn = none := by
  cases hst : st.exn with
  | none => rfl
  | some e => rw [synthStep_exn_some env st (by simp [hst])] at h2; simp_all

/-- After the five pre-synthesis stages succeed, each of the first five
stages is Completed or Skipped and FinalSynthesis is still untouched
(Pending). -/
theorem preSynth_shape (inp : RunInput) (env : PipelineEnv)
    (h : (preSynth inp env).exn = none) :
    ((preSynth inp env).ps.contentIngestion.status = .completed ∨
      (preSynth inp env).ps.contentIngestion.status = .skipped) ∧
    ((preSynth inp env).ps.textualAnalysis.status = .completed ∨
      (preSynth inp env).ps.textualAnalysis.status = .skipped) ∧
    ((preSynth inp env).ps.emotionAnalysis.status = .completed ∨
      (preSynth inp env).ps.emotionAnalysis.status = .skipped) ∧
    ((preSynth inp env).ps.visualAnalysis.status = .completed ∨
      (preSynth inp env).ps.visualAnalysis.status = .skipped) ∧
    ((preSynth inp env).ps.sourceIntelligence.status = .completed ∨
      (preSynth inp env).ps.sourceIntelligence.status = .skipped) ∧
    (preSynth inp env).ps.finalSynthesis = ⟨.pending, none⟩ := by
  unfold preSynth at *
  set s1 : RunState := imageStep inp env initialRunState with hs1
  set s2 : RunState := ingestStep inp env s1 with hs2
  set s3 : RunState := textualStep env s2 with hs3
  set s4 : RunState := emotionStep env s3 with hs4
  set s5 : RunState := visualStep inp env s4 with hs5
  have e5 : s5.exn = none := sourceStep_exn_mono inp env s5 h
  have e4 : s4.exn = none := visualStep_exn_mono inp env s4 (hs5 ▸ e5)
  have e3 : s3.exn = none := emotionStep_exn_mono env s3 (hs4 ▸ e4)
  have e2 : s2.exn = none := textualStep_exn_mono env s2 (hs3 ▸ e3)
  have e1 : s1.exn = none := ingestStep_exn_mono inp env s1 (hs2 ▸ e2)
  have hIng := ingestStep_ok inp env s1 e1 (hs2 ▸ e2)
  have hTex := textualStep_ok env s2 e2 (hs3 ▸ e3)
  have hEmo := emotionStep_ok env s3 e3 (hs4 ▸ e4)
  have hVis := visualStep_ok inp env s4 e4 (hs5 ▸ e5)
  have hSrc := sourceStep_ok inp env s5 e5 h
  rw [← hs2] at hIng
  rw [← hs3] at hTex
  rw [← hs4] at hEmo
  rw [← hs5] at hVis
  obtain ⟨tf1, -, -, -, tf5, -⟩ := textualStep_frame env s2
  obtain ⟨ef1, ef2, -, -, ef5, -⟩ := emotionStep_frame env s3
  obtain ⟨vf1, vf2, vf3, -, vf5, -⟩ := visualStep_frame inp env s4
  obtain ⟨sf1, sf2, sf3, sf4, sf5, -⟩ := sourceStep_frame inp env s5
  have if5 := (ingestStep_frame inp env s1).2.2.2.2.1
  have hImg : (imageStep inp env initialRunState).ps = initialRunState.ps :=
    (imageStep_frame inp env initialRunState).1
  rw [← hs3] at tf1 tf5
  rw [← hs4] at ef1 ef2 ef5
  rw [← hs5] at vf1 vf2 vf3 vf5
  rw [← hs2] at if5
  rw [← hs1] at hImg
  refine ⟨?_, ?_, ?_, ?_, ?_, ?_⟩
  · rw [sf1, vf1, ef1, tf1]; exact hIng
  · rw [sf2, vf2, ef2]; exact hTex
  · rw [sf3, vf3]; exact hEmo
  · rw [sf4]; exact hVis
  · exact hSrc
  · rw [sf5, vf5, ef5, tf5, if5, hImg]
    rfl

theorem runStages_eq (inp : RunInput) (env : PipelineEnv) :
    runStages inp env = synthStep env (preSynth inp env) := rfl

/-- When the run's try-block succeeds, every stage ends terminal and none is
Running. -/
theorem runStages_ok_shape (inp : RunInput) (env : PipelineEnv)
    (h : (runStages inp env).exn = none) :
    noRunning (runStages inp env).ps ∧ allTerminal (runStages inp env).ps := by
  rw [runStages_eq] at *
  set p : RunState := preSynth inp env with hp
  have ep : p.exn = none := synthStep_exn_mono env p h
  obtain ⟨i1, i2, i3, i4, i5, i6⟩ := preSynth_shape inp env (hp ▸ ep)
  rw [← hp] at i1 i2 i3 i4 i5 i6
  obtain ⟨c1, c2, c3, c4, c5, -, -⟩ := synthStep_frame env p
  have hS := synthStep_ok env p ep h
  constructor
  · refine ⟨?_, ?_, ?_, ?_, ?_, ?_⟩
    · rw [c1]; rcases i1 with h' | h' <;> simp [h']
    · rw [c2]; rcases i2 with h' | h' <;> simp [h']
    · rw [c3]; rcases i3 with h' | h' <;> simp [h']
    · rw [c4]; rcases i4 with h' | h' <;> simp [h']
    · rw [c5]; rcases i5 with h' | h' <;> simp [h']
    · rcases hS with h' | h' <;> simp [h']
  · refine ⟨?_, ?_, ?_, ?_, ?_, ?_⟩
    · rw [c1]; rcases i1 with h' | h' <;> simp [isTerminal, h']
    · rw [c2]; rcases i2 with h' | h' <;> simp [isTerminal, h']
    · rw [c3]; rcases i3 with h' | h' <;> simp [isTerminal, h']
    · rw [c4]; rcases i4 with h' | h' <;> simp [isTerminal, h']
    · rw [c5]; rcases i5 with h' | h' <;> simp [isTerminal, h']
    · rcases hS with h' | h' <;> simp [isTerminal, h']

/-- When the run's try-block throws, every stage other than (possibly) the
one that threw is not Running in the state the catch block sees. -/
theorem runStages_fail_shape (inp : RunInput) (env : PipelineEnv)
    (h : (runStages inp env).exn.isSome) :
    ∃ a, exceptRunning (runStages inp env).ps a := by
  unfold runStages at *
  set s1 : RunState := imageStep inp env initialRunState with hs1
  set s2 : RunState := ingestStep inp env s1 with hs2
  set s3 : RunState := textualStep env s2 with hs3
  set s4 : RunState := emotionStep env s3 with hs4
  set s5 : RunState := visualStep inp env s4 with hs5
  set s6 : RunState := sourceStep inp env s5 with hs6
  set s7 : RunState := synthStep env s6 with hs7
  have h1ps : s1.ps = initialRunState.ps := by
    rw [hs1]; exact (imageStep_frame inp env initialRunState).1
  cases e1 : s1.exn with
  | some e =>
    have q2 : s2 = s1 := by rw [hs2]; exact ingestStep_exn_some inp env s1 (by simp [e1])
    have q3 : s3 = s1 := by rw [hs3, q2]; exact textualStep_exn_some env s1 (by simp [e1])
    have q4 : s4 = s1 := by rw [hs4, q3]; exact emotionStep_exn_some env s1 (by simp [e1])
    have q5 : s5 = s1 := by rw [hs5, q4]; exact visualStep_exn_some inp env s1 (by simp [e1])
    have q6 : s6 = s1 := by rw [hs6, q5]; exact sourceStep_exn_some inp env s1 (by simp [e1])
    have q7 : s7 = s1 := by rw [hs7, q6]; exact synthStep_exn_some env s1 (by simp [e1])
    refine ⟨.contentIngestion, ?_⟩
    rw [q7, h1ps]
    simp [exceptRunning, initialRunState, INITIAL_PIPELINE_STATE]
  | none =>
    cases e2 : s2.exn with
    | some e =>
      have q3 : s3 = s2 := by rw [hs3]; exact textualStep_exn_some env s2 (by simp [e2])
      have q4 : s4 = s2 := by rw [hs4, q3]; exact emotionStep_exn_some env s2 (by simp [e2])
      have q5 : s5 = s2 := by rw [hs5, q4]; exact visualStep_exn_some inp env s2 (by simp [e2])
      have q6 : s6 = s2 := by rw [hs6, q5]; exact sourceStep_exn_some inp env s2 (by simp [e2])
      have q7 : s7 = s2 := by rw [hs7, q6]; exact synthStep_exn_some env s2 (by simp [e2])
      obtain ⟨w1, w2, w3, w4, w5, -⟩ := ingestStep_frame inp env s1
      rw [← hs2] at w1 w2 w3 w4 w5
      refine ⟨.contentIngestion, ?_⟩
      rw [q7]
      refine ⟨fun hne => absurd rfl hne, ?_, ?_, ?_, ?_, ?_⟩ <;> intro hne
      · rw [w1, h1ps]; simp [initialRunState, INITIAL_PIPELINE_STATE]
      · rw [w2, h1ps]; simp [initialRunState, INITIAL_PIPELINE_STATE]
      · rw [w3, h1ps]; simp [initialRunState, INITIAL_PIPELINE_STATE]
      · rw [w4, h1ps]; simp [initialRunState, INITIAL_PIPELINE_STATE]
      · rw [w5, h1ps]; simp [initialRunState, INITIAL_PIPELINE_STATE]
    | none =>
      have hI2 := ingestStep_ok inp env s1 e1 (hs2 ▸ e2)
      rw [← hs2] at hI2
      cases e3 : s3.exn with
      | some e =>
        have q4 : s4 = s3 := by rw [hs4]; exact emotionStep_exn_some env s3 (by simp [e3])
        have q5 : s5 = s3 := by rw [hs5, q4]; exact visualStep_exn_some inp env s3 (by simp [e3])
        have q6 : s6 = s3 := by rw [hs6, q5]; exact sourceStep_exn_some inp env s3 (by simp [e3])
        have q7 : s7 = s3 := by rw [hs7, q6]; exact synthStep_exn_some env s3 (by simp [e3])
        obtain ⟨t1, t2, t3, t4, t5, -⟩ := textualStep_frame env s2
        rw [← hs3] at t1 t2 t3 t4 t5
        obtain ⟨-, w2, w3, w4, w5, -⟩ := ingestStep_frame inp env s1
        rw [← hs2] at w2 w3 w4 w5
        refine ⟨.textualAnalysis, ?_⟩
        rw [q7]
        refine ⟨?_, fun hne => absurd rfl hne, ?_, ?_, ?_, ?_⟩ <;> intro hne
        · rw [t1]; rcases hI2 with h' | h' <;> simp [h']
        · rw [t2, w2, h1ps]; simp [initialRunState, INITIAL_PIPELINE_STATE]
        · rw [t3, w3, h1ps]; simp [initialRunState, INITIAL_PIPELINE_STATE]
        · rw [t4, w4, h1ps]; simp [initialRunState, INITIAL_PIPELINE_STATE]
        · rw [t5, w5, h1ps]; simp [initialRunState, INITIAL_PIPELINE_STATE]
      | none =>
        have hT3 := textualStep_ok env s2 e2 (hs3 ▸ e3)
        rw [← hs3] at hT3
        obtain ⟨t1, -, -, -, -, -⟩ := textualStep_frame env s2
        rw [← hs3] at t1
        cases e4 : s4.exn with
        | some e =>
          have q5 : s5 = s4 := by rw [hs5]; exact visualStep_exn_some inp env s4 (by simp [e4])
          have q6 : s6 = s4 := by rw [hs6, q5]; exact sourceStep_exn_some inp env s4 (by simp [e4])
          have q7 : s7 = s4 := by rw [hs7, q6]; exact synthStep_exn_some env s4 (by simp [e4])
          obtain ⟨m1, m2, m3, m4, m5, -⟩ := emotionStep_frame env s3
          rw [← hs4] at m1 m2 m3 m4 m5
          obtain ⟨-, -, t3, t4, t5, -⟩ := textualStep_frame env s2
          rw [← hs3] at t3 t4 t5
          obtain ⟨-, -, w3, w4, w5, -⟩ := ingestStep_frame inp env s1
          rw [← hs2] at w3 w4 w5
          refine ⟨.emotionAnalysis, ?_⟩
          rw [q7]
          refine ⟨?_, ?_, fun hne => absurd rfl hne, ?_, ?_, ?_⟩ <;> intro hne
          · rw [m1, t1]; rcases hI2 with h' | h' <;> simp [h']
          · rw [m2]; rcases hT3 with h' | h' <;> simp [h']
          · rw [m3, t3, w3, h1ps]; simp [initialRunState, INITIAL_PIPELINE_STATE]
          · rw [m4, t4, w4, h1ps]; simp [initialRunState, INITIAL_PIPELINE_STATE]
          · rw [m5, t5, w5, h1ps]; simp [initialRunState, INITIAL_PIPELINE_STATE]
        | none =>
          have hE4 := emotionStep_ok env s3 e3 (hs4 ▸ e4)
          rw [← hs4] at hE4
          obtain ⟨m1, m2, -, -, -, -⟩ := emotionStep_frame env s3
          rw [← hs4] at m1 m2
          cases e5 : s5.exn with
          | some e =>
            have q6 : s6 = s5 := by rw [hs6]; exact sourceStep_exn_some inp env s5 (by simp [e5])
            have q7 : s7 = s5 := by rw [hs7, q6]; exact synthStep_exn_some env s5 (by simp [e5])
            obtain ⟨v1, v2, v3, v4, v5, -⟩ := visualStep_frame inp env s4
            rw [← hs5] at v1 v2 v3 v4 v5
            obtain ⟨-, -, -, t4, t5, -⟩ := textualStep_frame env s2
            rw [← hs3] at t4 t5
            obtain ⟨-, -, -, w4, w5, -⟩ := ingestStep_frame inp env s1
            rw [← hs2] at w4 w5
            obtain ⟨-, -, -, m4, m5, -⟩ := emotionStep_frame env s3
            rw [← hs4] at m4 m5
            refine ⟨.visualAnalysis, ?_⟩
            rw [q7]
            refine ⟨?_, ?_, ?_, fun hne => absurd rfl hne, ?_, ?_⟩ <;> intro hne
            · rw [v1, m1, t1]; rcases hI2 with h' | h' <;> simp [h']
            · rw [v2, m2]; rcases hT3 with h' | h' <;> simp [h']
            · rw [v3]; rcases hE4 with h' | h' <;> simp [h']
            · rw [v4, m4, t4, w4, h1ps]; simp [initialRunState, INITIAL_PIPELINE_STATE]
            · rw [v5, m5, t5, w5, h1ps]; simp [initialRunState, INITIAL_PIPELINE_STATE]
          | none =>
            have hV5 := visualStep_ok inp env s4 e4 (hs5 ▸ e5)
            rw [← hs5] at hV5
            obtain ⟨v1, v2, v3, -, -, -⟩ := visualStep_frame inp env s4
            rw [← hs5] at v1 v2 v3
            cases e6 : s6.exn with
            | some e =>
              have q7 : s7 = s6 := by rw [hs7]; exact synthStep_exn_some env s6 (by simp [e6])
              obtain ⟨r1, r2, r3, r4, r5, -⟩ := sourceStep_frame inp env s5
              rw [← hs6] at r1 r2 r3 r4 r5
              obtain ⟨-, -, -, -, t5, -⟩ := textualStep_frame env s2
              rw [← hs3] at t5
              obtain ⟨-, -, -, -, w5, -⟩ := ingestStep_frame inp env s1
              rw [← hs2] at w5
              obtain ⟨-, -, -, -, m5, -⟩ := emotionStep_frame env s3
              rw [← hs4] at m5
              obtain ⟨-, -, -, -, v5, -⟩ := visualStep_frame inp env s4
              rw [← hs5] at v5
              refine ⟨.sourceIntelligence, ?_⟩
              rw [q7]
              refine ⟨?_, ?_, ?_, ?_, fun hne => absurd rfl hne, ?_⟩ <;> intro hne
              · rw [r1, v1, m1, t1]; rcases hI2 with h' | h' <;> simp [h']
              · rw [r2, v2, m2]; rcases hT3 with h' | h' <;> simp [h']
              · rw [r3, v3]; rcases hE4 with h' | h' <;> simp [h']
              · rw [r4]; rcases hV5 with h' | h' <;> simp [h']
              · rw [r5, v5, m5, t5, w5, h1ps]; simp [initialRunState, INITIAL_PIPELINE_STATE]
            | none =>
              have hR6 := sourceStep_ok inp env s5 e5 (hs6 ▸ e6)
              rw [← hs6] at hR6
              obtain ⟨r1, r2, r3, r4, -, -⟩ := sourceStep_frame inp env s5
              rw [← hs6] at r1 r2 r3 r4
              obtain ⟨y1, y2, y3, y4, y5, -, -⟩ := synthStep_frame env s6
              rw [← hs7] at y1 y2 y3 y4 y5
              refine ⟨.finalSynthesis, ?_⟩
              refine ⟨?_, ?_, ?_, ?_, ?_, fun hne => absurd rfl hne⟩ <;> intro hne
              · rw [y1, r1, v1, m1, t1]; rcases hI2 with h' | h' <;> simp [h']
              · rw [y2, r2, v2, m2]; rcases hT3 with h' | h' <;> simp [h']
              · rw [y3, r3, v3]; rcases hE4 with h' | h' <;> simp [h']
              · rw [y4, r4]; rcases hV5 with h' | h' <;> simp [h']
              · rw [y5]; rcases hR6 with h' | h' <;> simp [h']

/-- Claim C1, counterexample: a run that terminates with a reported error
(the URL-ingestion model call throws) leaves TextualAnalysis Pending — not
every stage is terminal, contradicting the claim as stated. -/
theorem C1_counterexample :
    (handleRunPipeline urlInput ingestFailEnv []).map
      (fun o => (o.error.isSome, o.ps.textualAnalysis.status,
        o.ps.finalSynthesis.status)) = some (true, .pending, .pending) := by
  rfl

/-- Claim C1 as amended: for every pipeline run that terminates, no stage is
left Running; and when the run terminates successfully (no reported error)
every one of the six stages is terminal.  A run that terminates with a
reported error may leave the stages after the failure point Pending. -/
theorem C1_run_terminal (inp : RunInput) (env : PipelineEnv)
    (hist : List HistoryItem) (out : RunOutput)
    (h : handleRunPipeline inp env hist = some out) :
    noRunning out.ps ∧ (out.error = none → allTerminal out.ps) := by
  unfold handleRunPipeline at h
  split at h
  · exact absurd h (by simp)
  · have hout : out = finishRun inp env hist (runStages inp env) := by
      injection h with h'
      exact h'.symm
    subst hout
    cases hex : (runStages inp env).exn with
    | none =>
      obtain ⟨hnr, hat⟩ := runStages_ok_shape inp env hex
      simp only [finishRun, hex]
      exact ⟨hnr, fun _ => hat⟩
    | some e =>
      obtain ⟨a, ha⟩ := runStages_fail_shape inp env (by simp [hex])
      simp only [finishRun, hex]
      refine ⟨noRunning_catchMark _ _ a ha, ?_⟩
      intro hcontra
      simp at hcontra

/-- Witness for C1_run_terminal at a concrete successful text-only run. -/
theorem C1_witness :
    noRunning (finishRun textOnlyInput okEnv [] (runStages textOnlyInput okEnv)).ps ∧
    ((finishRun textOnlyInput okEnv [] (runStages textOnlyInput okEnv)).error = none →
      allTerminal (finishRun textOnlyInput okEnv [] (runStages textOnlyInput okEnv)).ps) :=
  C1_run_terminal textOnlyInput okEnv [] _ rfl

theorem firstRunning_none (ps : PipelineState) (h : noRunning ps) :
    firstRunning ps = none := by
  obtain ⟨h1, h2, h3, h4, h5, h6⟩ := h
  unfold firstRunning
  split_ifs <;> simp_all

theorem catchError_of_noRunning (ps : PipelineState) (msg : String)
    (h : noRunning ps) : catchError ps msg = "Pipeline failed: " ++ msg := by
  unfold catchError
  rw [firstRunning_none ps h]

theorem preSynth_noRunning (inp : RunInput) (env : PipelineEnv)
    (h : (preSynth inp env).exn = none) : noRunning (preSynth inp env).ps := by
  obtain ⟨i1, i2, i3, i4, i5, i6⟩ := preSynth_shape inp env h
  refine ⟨?_, ?_, ?_, ?_, ?_, ?_⟩
  · rcases i1 with h' | h' <;> simp [h']
  · rcases i2 with h' | h' <;> simp [h']
  · rcases i3 with h' | h' <;> simp [h']
  · rcases i4 with h' | h' <;> simp [h']
  · rcases i5 with h' | h' <;> simp [h']
  · rw [i6]; simp

theorem preSynth_noErrorMark (inp : RunInput) (env : PipelineEnv)
    (h : (preSynth inp env).exn = none) : noErrorMark (preSynth inp env).ps := by
  obtain ⟨i1, i2, i3, i4, i5, i6⟩ := preSynth_shape inp env h
  refine ⟨?_, ?_, ?_, ?_, ?_, ?_⟩
  · rcases i1 with h' | h' <;> simp [h']
  · rcases i2 with h' | h' <;> simp [h']
  · rcases i3 with h' | h' <;> simp [h']
  · rcases i4 with h' | h' <;> simp [h']
  · rcases i5 with h' | h' <;> simp [h']
  · rw [i6]; simp

/-- The FinalSynthesis precondition throw: with no textual and no visual
result, stage 6 only records the no-data exception. -/
theorem synthStep_noData (env : PipelineEnv) (st : RunState)
    (h : st.exn = none) (ht : st.results.textual = none)
    (hv : st.results.visual = none) :
    synthStep env st = { st with exn := some noDataMsg } := by
  unfold synthStep
  simp [h, ht, hv]

/-- Claim C2: for every run in which the five earlier stages finish without
throwing and neither the textual nor the visual result was populated, the
run fails with the no-data-to-synthesize error and FinalSynthesis is never
set to Running (it is still Pending in the final state). -/
theorem C2_noData_abort (inp : RunInput) (env : PipelineEnv)
    (hist : List HistoryItem) (out : RunOutput)
    (h : handleRunPipeline inp env hist = some out)
    (h0 : (preSynth inp env).exn = none)
    (ht : (preSynth inp env).results.textual = none)
    (hv : (preSynth inp env).results.visual = none) :
    out.error = some ("Pipeline failed: " ++ noDataMsg) ∧
    out.ps.finalSynthesis.status = .pending := by
  unfold handleRunPipeline at h
  split at h
  · exact absurd h (by simp)
  · have hout : out = finishRun inp env hist (runStages inp env) := by
      injection h with h'
      exact h'.symm
    subst hout
    have hnr := preSynth_noRunning inp env h0
    have hfs := (preSynth_shape inp env h0).2.2.2.2.2
    rw [runStages_eq, synthStep_noData env (preSynth inp env) h0 ht hv]
    simp only [finishRun]
    constructor
    · rw [catchError_of_noRunning _ _ hnr]
      rfl
    · rw [catchMark_of_noRunning _ _ hnr, hfs]

/-- Witness for C2_noData_abort: a URL run whose extracted text is empty and
with no visual media aborts with the no-data error, FinalSynthesis still
Pending. -/
theorem C2_witness :
    (finishRun urlInput noTextEnv [] (runStages urlInput noTextEnv)).error =
      some ("Pipeline failed: " ++ noDataMsg) ∧
    (finishRun urlInput noTextEnv [] (runStages urlInput noTextEnv)).ps.finalSynthesis.status =
      .pending :=
  C2_noData_abort urlInput noTextEnv [] _ rfl rfl rfl rfl

/-- Claim C9: when the run aborts at the FinalSynthesis precondition (the
five earlier stages finished without throwing, neither textual nor visual
data is present), no stage is marked Error, FinalSynthesis remains Pending,
and the run is still reported as failed. -/
theorem C9_noData_no_error_mark (inp : RunInput) (env : PipelineEnv)
    (hist : List HistoryItem) (out : RunOutput)
    (h : handleRunPipeline inp env hist = some out)
    (h0 : (preSynth inp env).exn = none)
    (ht : (preSynth inp env).results.textual = none)
    (hv : (preSynth inp env).results.visual = none) :
    noErrorMark out.ps ∧ out.ps.finalSynthesis.status = .pending ∧
    out.error.isSome := by
  unfold handleRunPipeline at h
  split at h
  · exact absurd h (by simp)
  · have hout : out = finishRun inp env hist (runStages inp env) := by
      injection h with h'
      exact h'.symm
    subst hout
    have hnr := preSynth_noRunning inp env h0
    have hne := preSynth_noErrorMark inp env h0
    have hfs := (preSynth_shape inp env h0).2.2.2.2.2
    rw [runStages_eq, synthStep_noData env (preSynth inp env) h0 ht hv]
    simp only [finishRun]
    refine ⟨?_, ?_, ?_⟩
    · rw [catchMark_of_noRunning _ _ hnr]
      exact hne
    · rw [catchMark_of_noRunning _ _ hnr, hfs]
    · simp

/-- Witness for C9_noData_no_error_mark at the same concrete aborting run. -/
theorem C9_witness :
    noErrorMark (finishRun urlInput noTextEnv [] (runStages urlInput noTextEnv)).ps ∧
    (finishRun urlInput noTextEnv [] (runStages urlInput noTextEnv)).ps.finalSynthesis.status =
      .pending ∧
    (finishRun urlInput noTextEnv [] (runStages urlInput noTextEnv)).error.isSome :=
  C9_noData_no_error_mark urlInput noTextEnv [] _ rfl rfl rfl rfl

theorem textualStep_skip (env : PipelineEnv) (st : RunState)
    (h : st.exn = none) (hmt : ingestionText st.results = "") :
    textualStep env st =
      { st with ps := setAgent st.ps .textualAnalysis .skipped (some "No text to analyze") } := by
  unfold textualStep
  simp [h, hmt]

theorem emotionStep_skip (env : PipelineEnv) (st : RunState)
    (h : st.exn = none) (hmt : ingestionText st.results = "") :
    emotionStep env st =
      { st with ps := setAgent st.ps .emotionAnalysis .skipped (some "No text to analyze") } := by
  unfold emotionStep
  simp [h, hmt]

/-- The catch block never rewrites a stage that is not Running. -/
theorem catchMark_frame (ps : PipelineState) (msg : String) :
    (ps.contentIngestion.status ≠ .running →
      (catchMark ps msg).contentIngestion = ps.contentIngestion) ∧
    (ps.textualAnalysis.status ≠ .running →
      (catchMark ps msg).textualAnalysis = ps.textualAnalysis) ∧
    (ps.emotionAnalysis.status ≠ .running →
      (catchMark ps msg).emotionAnalysis = ps.emotionAnalysis) ∧
    (ps.visualAnalysis.status ≠ .running →
      (catchMark ps msg).visualAnalysis = ps.visualAnalysis) ∧
    (ps.sourceIntelligence.status ≠ .running →
      (catchMark ps msg).sourceIntelligence = ps.sourceIntelligence) ∧
    (ps.finalSynthesis.status ≠ .running →
      (catchMark ps msg).finalSynthesis = ps.finalSynthesis) := by
  unfold catchMark firstRunning
  split_ifs <;> simp_all [setAgent]

theorem runStages_eq_chain (inp : RunInput) (env : PipelineEnv) :
    runStages inp env = synthStep env (sourceStep inp env (visualStep inp env
      (emotionStep env (textualStep env (postIngest inp env))))) := rfl

/-- Claim C5: in every run in which ingestion finished without throwing and
produced no text (including the case where ingestion itself was skipped),
TextualAnalysis and EmotionAnalysis both end Skipped — never Error. -/
theorem C5_text_stages_skipped (inp : RunInput) (env : PipelineEnv)
    (hist : List HistoryItem) (out : RunOutput)
    (h : handleRunPipeline inp env hist = some out)
    (h0 : (postIngest inp env).exn = none)
    (htext : ingestionText (postIngest inp env).results = "") :
    out.ps.textualAnalysis = ⟨.skipped, some "No text to analyze"⟩ ∧
    out.ps.emotionAnalysis = ⟨.skipped, some "No text to analyze"⟩ := by
  unfold handleRunPipeline at h
  split at h
  · exact absurd h (by simp)
  · have hout : out = finishRun inp env hist (runStages inp env) := by
      injection h with h'
      exact h'.symm
    subst hout
    set p : RunState := postIngest inp env with hp
    have h3 : textualStep env p =
        { p with ps := setAgent p.ps .textualAnalysis .skipped (some "No text to analyze") } :=
      textualStep_skip env p h0 htext
    set s3 : RunState := textualStep env p with hs3
    have e3 : s3.exn = none := by rw [h3]; exact h0
    have r3 : s3.results = p.results := by rw [h3]
    have p3t : s3.ps.textualAnalysis = ⟨.skipped, some "No text to analyze"⟩ := by
      rw [h3]; simp [setAgent]
    have h4 : emotionStep env s3 =
        { s3 with ps := setAgent s3.ps .emotionAnalysis .skipped (some "No text to analyze") } :=
      emotionStep_skip env s3 e3 (by rw [r3]; exact htext)
    set s4 : RunState := emotionStep env s3 with hs4
    have p4t : s4.ps.textualAnalysis = ⟨.skipped, some "No text to analyze"⟩ := by
      rw [h4]; simp only [setAgent]; exact p3t
    have p4e : s4.ps.emotionAnalysis = ⟨.skipped, some "No text to analyze"⟩ := by
      rw [h4]; simp [setAgent]
    set s5 : RunState := visualStep inp env s4 with hs5
    set s6 : RunState := sourceStep inp env s5 with hs6
    set s7 : RunState := synthStep env s6 with hs7
    have hchain : runStages inp env = s7 := by
      rw [runStages_eq_chain, ← hp, ← hs3, ← hs4, ← hs5, ← hs6, ← hs7]
    obtain ⟨-, v2, v3, -, -, -⟩ := visualStep_frame inp env s4
    obtain ⟨-, r2, r3', -, -, -⟩ := sourceStep_frame inp env s5
    obtain ⟨-, y2, y3, -, -, -⟩ := synthStep_frame env s6
    rw [← hs5] at v2 v3
    rw [← hs6] at r2 r3'
    rw [← hs7] at y2 y3
    have p7t : s7.ps.textualAnalysis = ⟨.skipped, some "No text to analyze"⟩ := by
      rw [y2, r2, v2]; exact p4t
    have p7e : s7.ps.emotionAnalysis = ⟨.skipped, some "No text to analyze"⟩ := by
      rw [y3, r3', v3]; exact p4e
    rw [hchain]
    cases hex : s7.exn with
    | none =>
      simp only [finishRun, hex]
      exact ⟨p7t, p7e⟩
    | some e =>
      simp only [finishRun, hex]
      obtain ⟨-, cf2, cf3, -, -, -⟩ := catchMark_frame s7.ps (getFriendlyErrorMessage e)
      constructor
      · rw [cf2 (by rw [p7t]; simp)]
        exact p7t
      · rw [cf3 (by rw [p7e]; simp)]
        exact p7e

/-- Witness for C5_text_stages_skipped: an image-only run (Ingestion skipped,
no text) leaves TextualAnalysis and EmotionAnalysis Skipped. -/
theorem C5_witness :
    (finishRun imageOnlyInput okEnv [] (runStages imageOnlyInput okEnv)).ps.textualAnalysis =
      ⟨.skipped, some "No text to analyze"⟩ ∧
    (finishRun imageOnlyInput okEnv [] (runStages imageOnlyInput okEnv)).ps.emotionAnalysis =
      ⟨.skipped, some "No text to analyze"⟩ :=
  C5_text_stages_skipped imageOnlyInput okEnv [] _ rfl rfl rfl

theorem imageStep_ok_id (inp : RunInput) (env : PipelineEnv) (st : RunState)
    (hok : inp.hasImage = true → env.imageRead.toOption.isSome = true) :
    imageStep inp env st = st := by
  unfold imageStep
  repeat' split
  all_goals first | rfl | (exfalso; simp_all [Except.toOption])

theorem imageStep_err (inp : RunInput) (env : PipelineEnv) (st : RunState)
    (e : String) (h : st.exn = none) (hi : inp.hasImage = true)
    (he : env.imageRead = .error e) :
    imageStep inp env st = { st with exn := some "Failed to read image file." } := by
  unfold imageStep
  simp [h, hi, he]

theorem ingestStep_skip (inp : RunInput) (env : PipelineEnv) (st : RunState)
    (h : st.exn = none) (hu : inp.url = "") (ht : inp.textInput = "") :
    ingestStep inp env st =
      { st with ps := setAgent st.ps .contentIngestion .skipped (some "No URL or text provided") } := by
  unfold ingestStep
  simp [h, hu, ht]

theorem ingestStep_url_status (inp : RunInput) (env : PipelineEnv) (st : RunState)
    (h : st.exn = none) (hu : inp.url ≠ "") :
    (ingestStep inp env st).ps.contentIngestion.status = .completed ∨
    (ingestStep inp env st).ps.contentIngestion.status = .running := by
  unfold ingestStep
  simp only [h, hu]
  repeat' split
  all_goals simp_all [setAgent]

theorem ingestStep_text_status (inp : RunInput) (env : PipelineEnv) (st : RunState)
    (h : st.exn = none) (hu : inp.url = "") (ht : inp.textInput ≠ "") :
    (ingestStep inp env st).ps.contentIngestion.status = .completed := by
  unfold ingestStep
  simp [h, hu, ht, setAgent]

theorem catchMark_ing (ps : PipelineState) (msg : String) :
    (catchMark ps msg).contentIngestion.status = .error ∨
    (catchMark ps msg).contentIngestion = ps.contentIngestion := by
  unfold catchMark firstRunning
  split_ifs <;> simp [setAgent]

theorem stages_preserve_ingestion (inp : RunInput) (env : PipelineEnv) :
    (runStages inp env).ps.contentIngestion = (postIngest inp env).ps.contentIngestion := by
  rw [runStages_eq_chain]
  set p : RunState := postIngest inp env with hp
  set s3 : RunState := textualStep env p with hs3
  set s4 : RunState := emotionStep env s3 with hs4
  set s5 : RunState := visualStep inp env s4 with hs5
  set s6 : RunState := sourceStep inp env s5 with hs6
  have t := (textualStep_frame env p).1
  have m := (emotionStep_frame env s3).1
  have v := (visualStep_frame inp env s4).1
  have r := (sourceStep_frame inp env s5).1
  have y := (synthStep_frame env s6).1
  rw [← hs3] at t
  rw [← hs4] at m
  rw [← hs5] at v
  rw [← hs6] at r
  rw [y, r, v, m, t]

theorem run_imageFail (inp : RunInput) (env : PipelineEnv) (e : String)
    (hi : inp.hasImage = true) (he : env.imageRead = .error e) :
    runStages inp env = { initialRunState with exn := some "Failed to read image file." } := by
  unfold runStages
  rw [imageStep_err inp env initialRunState e rfl hi he]
  rw [ingestStep_exn_some inp env _ (by simp)]
  rw [textualStep_exn_some env _ (by simp)]
  rw [emotionStep_exn_some env _ (by simp)]
  rw [visualStep_exn_some inp env _ (by simp)]
  rw [sourceStep_exn_some inp env _ (by simp)]
  rw [synthStep_exn_some env _ (by simp)]

/-- Claim C3, counterexample: an image-only submission is an input kind, yet
the Ingestion stage ends Skipped — contradicting the claim that Ingestion is
never Skipped when at least one input kind is present. -/
theorem C3_counterexample :
    imageOnlyInput.hasImage = true ∧
    (handleRunPipeline imageOnlyInput okEnv []).map
      (fun o => o.ps.contentIngestion.status) = some .skipped :=
  ⟨rfl, rfl⟩

/-- Claim C3 as amended: in every run that executes (at least one input kind
present), Ingestion is marked Skipped exactly when neither a URL nor raw
text was submitted (an image or video only) and the image file, if any, is
read successfully; when no input kind at all is present the pipeline
returns early and Ingestion is never marked. -/
theorem C3_ingestion_skipped_iff (inp : RunInput) (env : PipelineEnv)
    (hist : List HistoryItem) (out : RunOutput)
    (h : handleRunPipeline inp env hist = some out) :
    out.ps.contentIngestion.status = .skipped ↔
      (inp.url = "" ∧ inp.textInput = "" ∧
        (inp.hasImage = true → env.imageRead.toOption.isSome = true)) := by
  unfold handleRunPipeline at h
  split at h
  · exact absurd h (by simp)
  · have hout : out = finishRun inp env hist (runStages inp env) := by
      injection h with h'
      exact h'.symm
    subst hout
    constructor
    · intro hsk
      have himg : inp.hasImage = true → env.imageRead.toOption.isSome = true := by
        intro hi
        by_contra hko
        cases hir : env.imageRead with
        | ok v => simp [hir, Except.toOption] at hko
        | error e =>
          rw [run_imageFail inp env e hi hir] at hsk
          simp [finishRun, catchMark, catchError, firstRunning, initialRunState,
            INITIAL_PIPELINE_STATE] at hsk
      have h1 : imageStep inp env initialRunState = initialRunState :=
        imageStep_ok_id inp env initialRunState himg
      have hpi : postIngest inp env = ingestStep inp env initialRunState := by
        unfold postIngest
        rw [h1]
      have hurl : inp.url = "" := by
        by_contra hu
        have hst := ingestStep_url_status inp env initialRunState rfl hu
        rw [← hpi] at hst
        have hpres := stages_preserve_ingestion inp env
        cases hex : (runStages inp env).exn with
        | none =>
          simp only [finishRun, hex] at hsk
          rw [hpres] at hsk
          rcases hst with h' | h' <;> simp [h'] at hsk
        | some e =>
          simp only [finishRun, hex] at hsk
          rcases catchMark_ing (runStages inp env).ps (getFriendlyErrorMessage e) with h' | h'
          · rw [h'] at hsk
            simp at hsk
          · rw [h', hpres] at hsk
            rcases hst with h'' | h'' <;> simp [h''] at hsk
      have htxt : inp.textInput = "" := by
        by_contra htx
        have hst := ingestStep_text_status inp env initialRunState rfl hurl htx
        rw [← hpi] at hst
        have hpres := stages_preserve_ingestion inp env
        cases hex : (runStages inp env).exn with
        | none =>
          simp only [finishRun, hex] at hsk
          rw [hpres] at hsk
          simp [hst] at hsk
        | some e =>
          simp only [finishRun, hex] at hsk
          rcases catchMark_ing (runStages inp env).ps (getFriendlyErrorMessage e) with h' | h'
          · rw [h'] at hsk
            simp at hsk
          · rw [h', hpres] at hsk
            simp [hst] at hsk
      exact ⟨hurl, htxt, himg⟩
    · rintro ⟨hu, ht, hio⟩
      have h1 : imageStep inp env initialRunState = initialRunState :=
        imageStep_ok_id inp env initialRunState hio
      have h2 : ingestStep inp env initialRunState =
          { initialRunState with ps := setAgent initialRunState.ps .contentIngestion .skipped (some "No URL or text provided") } :=
        ingestStep_skip inp env initialRunState rfl hu ht
      have hpi : (postIngest inp env).ps.contentIngestion =
          ⟨.skipped, some "No URL or text provided"⟩ := by
        unfold postIngest
        rw [h1, h2]
        simp [setAgent]
      have hpres := stages_preserve_ingestion inp env
      cases hex : (runStages inp env).exn with
      | none =>
        simp only [finishRun, hex]
        rw [hpres, hpi]
      | some e =>
        simp only [finishRun, hex]
        have cf := (catchMark_frame (runStages inp env).ps (getFriendlyErrorMessage e)).1
          (by rw [hpres, hpi]; simp)
        rw [cf, hpres, hpi]

/-- Witness for C3_ingestion_skipped_iff at the concrete image-only run. -/
theorem C3_witness :
    (finishRun imageOnlyInput okEnv [] (runStages imageOnlyInput okEnv)).ps.contentIngestion.status =
        .skipped ↔
      (imageOnlyInput.url = "" ∧ imageOnlyInput.textInput = "" ∧
        (imageOnlyInput.hasImage = true → okEnv.imageRead.toOption.isSome = true)) :=
  C3_ingestion_skipped_iff imageOnlyInput okEnv [] _ rfl

/-- The state after the four stages preceding Source Intelligence. -/
def postVisual (inp : RunInput) (env : PipelineEnv) : RunState :=
  visualStep inp env (emotionStep env (textualStep env (postIngest inp env)))

theorem runStages_eq_source (inp : RunInput) (env : PipelineEnv) :
    runStages inp env = synthStep env (sourceStep inp env (postVisual inp env)) := rfl

theorem sourceStep_memWrites (inp : RunInput) (env : PipelineEnv) (st : RunState)
    (r : SourceIntelligenceOutput) (h : st.exn = none)
    (hd : ingestionDomain st.results ≠ "") (hr : env.source = .ok r) :
    (sourceStep inp env st).memWrites = st.memWrites ++
      (if r.trust_score < MISINFORMATION_THRESHOLD then
        [⟨ingestionDomain st.results, inp.url, r.trust_score, env.now⟩] else []) := by
  unfold sourceStep
  simp only [h, hd, hr]
  have hig : ingestionDomain { st.results with source := some r } = ingestionDomain st.results := by
    cases hc : st.results.ingestion <;> simp [ingestionDomain, hc]
  split_ifs <;> simp_all

theorem postVisual_memWrites (inp : RunInput) (env : PipelineEnv) :
    (postVisual inp env).memWrites = [] := by
  unfold postVisual postIngest
  obtain ⟨-, -, -, a⟩ := imageStep_frame inp env initialRunState
  obtain ⟨-, -, -, -, -, -, -, -, -, -, b⟩ :=
    ingestStep_frame inp env (imageStep inp env initialRunState)
  obtain ⟨-, -, -, -, -, -, -, -, -, -, c⟩ :=
    textualStep_frame env (ingestStep inp env (imageStep inp env initialRunState))
  obtain ⟨-, -, -, -, -, -, -, -, -, -, d⟩ :=
    emotionStep_frame env (textualStep env (ingestStep inp env (imageStep inp env initialRunState)))
  obtain ⟨-, -, -, -, -, -, -, -, -, -, f⟩ :=
    visualStep_frame inp env (emotionStep env (textualStep env (ingestStep inp env
      (imageStep inp env initialRunState))))
  rw [f, d, c, b, a]
  rfl

theorem finishRun_memWrites (inp : RunInput) (env : PipelineEnv)
    (hist : List HistoryItem) (st : RunState) :
    (finishRun inp env hist st).memWrites = st.memWrites := by
  unfold finishRun
  split <;> rfl

/-- Claim C4: in every run that reaches Source Intelligence (the four
earlier stages finished without throwing and the ingested domain is
non-empty) whose source call yields trust score `r.trust_score`, a
Misinformation Memory write for that domain is triggered exactly when the
trust score is strictly below the threshold 40, and the write carries the
ingested domain. -/
theorem C4_misinfo_threshold (inp : RunInput) (env : PipelineEnv)
    (hist : List HistoryItem) (out : RunOutput) (r : SourceIntelligenceOutput)
    (h : handleRunPipeline inp env hist = some out)
    (h0 : (postVisual inp env).exn = none)
    (hd : ingestionDomain (postVisual inp env).results ≠ "")
    (hr : env.source = .ok r) :
    (out.memWrites ≠ [] ↔ r.trust_score < MISINFORMATION_THRESHOLD) ∧
    (r.trust_score < MISINFORMATION_THRESHOLD →
      out.memWrites =
        [⟨ingestionDomain (postVisual inp env).results, inp.url, r.trust_score, env.now⟩]) := by
  unfold handleRunPipeline at h
  split at h
  · exact absurd h (by simp)
  · have hout : out = finishRun inp env hist (runStages inp env) := by
      injection h with h'
      exact h'.symm
    subst hout
    rw [finishRun_memWrites, runStages_eq_source]
    obtain ⟨-, -, -, -, -, -, hsy⟩ := synthStep_frame env (sourceStep inp env (postVisual inp env))
    rw [hsy, sourceStep_memWrites inp env (postVisual inp env) r h0 hd hr,
      postVisual_memWrites]
    split_ifs with hlt
    · exact ⟨⟨fun _ => hlt, fun _ => by simp⟩, fun _ => by simp⟩
    · exact ⟨⟨fun hc => absurd rfl hc, fun hc => absurd hc hlt⟩, fun hc => absurd hc hlt⟩

/-- Witness for C4_misinfo_threshold: a URL run whose source call returns
trust score 39 (strictly below 40) triggers exactly one memory write for the
ingested domain. -/
theorem C4_witness :
    ((finishRun urlInput score39Env [] (runStages urlInput score39Env)).memWrites ≠ [] ↔
      (39 : Int) < MISINFORMATION_THRESHOLD) ∧
    ((39 : Int) < MISINFORMATION_THRESHOLD →
      (finishRun urlInput score39Env [] (runStages urlInput score39Env)).memWrites =
        [⟨ingestionDomain (postVisual urlInput score39Env).results, urlInput.url, (39 : Int),
          score39Env.now⟩]) :=
  C4_misinfo_threshold urlInput score39Env [] _ ⟨39, "Low", "x"⟩ rfl rfl (by decide) rfl

theorem finishRun_ok_history (inp : RunInput) (env : PipelineEnv)
    (hist : List HistoryItem) (st : RunState) (h : st.exn = none) :
    (finishRun inp env hist st).history = mkItemFrom inp env st :: hist ∧
    (finishRun inp env hist st).error = none := by
  simp [finishRun, h]

theorem finishRun_error_none_iff (inp : RunInput) (env : PipelineEnv)
    (hist : List HistoryItem) (st : RunState) :
    (finishRun inp env hist st).error = none ↔ st.exn = none := by
  unfold finishRun
  split <;> simp_all

/-- Whether one submission, under one environment, passes the input guard
and completes all six stages without throwing.  This does not depend on the
history the run starts from. -/
def runOk (inp : RunInput) (env : PipelineEnv) : Bool :=
  !(inp.url = "" && inp.textInput = "" && !inp.hasImage && !inp.hasVideo) &&
    (runStages inp env).exn.isNone

/-- A sequence of pipeline runs, each starting from the history the previous
one left behind (failed or guarded-out runs leave it unchanged). -/
def runMany : List (RunInput × PipelineEnv) → List HistoryItem → List HistoryItem
  | [], hist => hist
  | p :: rest, hist =>
    match handleRunPipeline p.1 p.2 hist with
    | some out => runMany rest out.history
    | none => runMany rest hist

/-- Claim C7: after a sequence of N successful runs, the history contains
the N produced items newest-first (reverse order of creation), each run
having prepended its item to the front of the list it started from. -/
theorem C7_history_newest_first (l : List (RunInput × PipelineEnv))
    (init : List HistoryItem) (hok : ∀ p ∈ l, runOk p.1 p.2 = true) :
    runMany l init = (l.map (fun p => mkHistoryItem p.1 p.2)).reverse ++ init := by
  induction l generalizing init with
  | nil => simp [runMany]
  | cons p rest ih =>
    have hp := hok p (List.mem_cons_self p rest)
    unfold runOk at hp
    simp only [Bool.and_eq_true, Bool.not_eq_true', Option.isNone_iff_eq_none] at hp
    obtain ⟨hg, he⟩ := hp
    have hrun : handleRunPipeline p.1 p.2 init =
        some (finishRun p.1 p.2 init (runStages p.1 p.2)) := by
      unfold handleRunPipeline
      rw [if_neg (by simp [hg])]
    simp only [runMany, hrun]
    rw [(finishRun_ok_history p.1 p.2 init (runStages p.1 p.2) he).1]
    rw [ih _ (fun q hq => hok q (List.mem_cons_of_mem p hq))]
    simp [mkHistoryItem, List.append_assoc]

/-- Witness for C7_history_newest_first: two concrete successful runs yield
their two items newest-first. -/
theorem C7_witness :
    runMany [(textOnlyInput, okEnv), (urlInput, okEnv)] [] =
      ([(textOnlyInput, okEnv), (urlInput, okEnv)].map
        (fun p => mkHistoryItem p.1 p.2)).reverse ++ [] :=
  C7_history_newest_first _ _ (by decide)

/-- Claim C6: when the comparison stream fails mid-flight (with at least two
items selected so the comparison runs), the surfaced error is the translated
message behind the "Comparison failed" prefix, the history selection is
cleared, and the comparison buffer keeps every chunk emitted before the
failure. -/
theorem C6_comparison_failure (st : CompareState) (env : StreamResult)
    (e : String) (hsel : 2 ≤ st.selectedIds.length) (hfail : env.fail = some e) :
    (handleRunComparison env st).error =
      some ("Comparison failed: " ++ getFriendlyErrorMessage e) ∧
    (handleRunComparison env st).selectedIds = [] ∧
    (handleRunComparison env st).comparisonReport = some (String.join env.chunks) := by
  unfold handleRunComparison
  rw [if_neg (by omega)]
  simp [hfail]

/-- A comparison view state with two selected reports. -/
def cmpState : CompareState :=
  { selectedIds := ["r1", "r2"], isCompareMode := true, comparisonReport := none
    error := none, showComparisonView := false, isComparing := false }

/-- A comparison stream that yields two chunks and then fails. -/
def cmpFailStream : StreamResult := ⟨["part1 ", "part2"], some "network down"⟩

/-- Witness for C6_comparison_failure at a concrete failing comparison. -/
theorem C6_witness :
    (handleRunComparison cmpFailStream cmpState).error =
      some ("Comparison failed: " ++ getFriendlyErrorMessage "network down") ∧
    (handleRunComparison cmpFailStream cmpState).selectedIds = [] ∧
    (handleRunComparison cmpFailStream cmpState).comparisonReport =
      some (String.join cmpFailStream.chunks) :=
  C6_comparison_failure cmpState cmpFailStream "network down" (by decide) rfl

theorem finishRun_ok_chat (inp : RunInput) (env : PipelineEnv)
    (hist : List HistoryItem) (st : RunState) (h : st.exn = none) :
    (finishRun inp env hist st).chatMessages = [⟨.model, chatGreeting⟩] ∧
    (finishRun inp env hist st).chatStarted = true := by
  simp [finishRun, h]

/-- Claim C8: after a successful run bootstraps the chat (transcript exactly
one model greeting) and one send completes with a successful stream, the
transcript has exactly 3 entries in order: the greeting, the user message,
and the model reply accumulated from the stream chunks. -/
theorem C8_chat_three_entries (inp : RunInput) (env : PipelineEnv)
    (hist : List HistoryItem) (out : RunOutput)
    (h : handleRunPipeline inp env hist = some out) (hok : out.error = none)
    (stream : ChatStream) (hopen : stream.openFail = none)
    (hfail : stream.fail = none) (m : String) :
    (handleSendChatMessage stream m
        ⟨out.chatStarted, out.chatMessages, false⟩).st.chatMessages =
      [⟨.model, chatGreeting⟩, ⟨.user, m⟩, ⟨.model, String.join stream.chunks⟩] := by
  unfold handleRunPipeline at h
  split at h
  · exact absurd h (by simp)
  · have hout : out = finishRun inp env hist (runStages inp env) := by
      injection h with h'
      exact h'.symm
    subst hout
    have hexn : (runStages inp env).exn = none :=
      (finishRun_error_none_iff inp env hist (runStages inp env)).mp hok
    obtain ⟨hmsgs, hstart⟩ := finishRun_ok_chat inp env hist (runStages inp env) hexn
    rw [hmsgs, hstart]
    simp [handleSendChatMessage, hopen, hfail, updateLastModel]

/-- Witness for C8_chat_three_entries at a concrete successful run and a
two-chunk reply stream. -/
theorem C8_witness :
    (handleSendChatMessage ⟨none, ["The risk ", "is low."], none⟩ "What is the risk?"
        ⟨(finishRun textOnlyInput okEnv [] (runStages textOnlyInput okEnv)).chatStarted,
          (finishRun textOnlyInput okEnv [] (runStages textOnlyInput okEnv)).chatMessages,
          false⟩).st.chatMessages =
      [⟨.model, chatGreeting⟩, ⟨.user, "What is the risk?"⟩,
        ⟨.model, String.join ["The risk ", "is low."]⟩] :=
  C8_chat_three_entries textOnlyInput okEnv [] _ rfl rfl
    ⟨none, ["The risk ", "is low."], none⟩ rfl rfl "What is the risk?"

/-- Claim C10: invoking send with no chat session, or while a prior send has
not resolved, is a no-op: the chat state (transcript included) is unchanged
and no stream is requested. -/
theorem C10_send_noop (stream : ChatStream) (m : String) (st : ChatState)
    (h : st.chatSession = false ∨ st.isChatLoading = true) :
    handleSendChatMessage stream m st = ⟨st, false⟩ := by
  unfold handleSendChatMessage
  rcases h with h | h <;> simp [h]

/-- Witness for C10_send_noop: sending while a prior send is in flight
changes nothing and requests no stream. -/
theorem C10_witness :
    handleSendChatMessage ⟨none, ["x"], none⟩ "hello"
        ⟨true, [⟨.model, chatGreeting⟩], true⟩ =
      ⟨⟨true, [⟨.model, chatGreeting⟩], true⟩, false⟩ :=
  C10_send_noop ⟨none, ["x"], none⟩ "hello" ⟨true, [⟨.model, chatGreeting⟩], true⟩
    (Or.inr rfl)
